import Mathlib

/-!
Verification model of the voice-assistant repository (two files:
`main.py`, the FastAPI orchestration service, and `app.py`, the Streamlit
session controller).

Shallow embedding conventions:
* Audio payloads are byte lists (`List Nat`); the base64 transport encoding
  of audio in HTTP responses is elided (responses carry the raw bytes),
  since no claim concerns the encoding itself.
* External providers (Deepgram speech-to-text / text-to-speech, Groq chat)
  are oracle parameters.  Server-side oracles return `Except String α`
  (`.error e` models a raised exception with message `e`); client-side
  helper functions in `app.py` catch all errors and return `None`, so the
  client-side oracles return `Option α`.
* Each modelled request handler / client turn additionally returns the list
  of provider (resp. HTTP) calls it issued, so that theorems can speak
  about "the messages actually sent to the provider".
-/

/-- A chat message `{role, content}` as used in conversation history and in
the provider request body. -/
structure Msg where
  role : String
  content : String
deriving DecidableEq, Repr

/-- A display message in `st.session_state.messages`: assistant entries may
additionally carry synthesized audio (`app.py` lines 176, 190-194). -/
structure DisplayMsg where
  role : String
  content : String
  audio : Option (List Nat)
deriving DecidableEq, Repr

/-- Python `l[-n:]`: the last `n` elements (the whole list when it is
shorter). -/
def takeLast {α : Type} (n : Nat) (l : List α) : List α :=
  l.drop (l.length - n)

/-- Python ASCII whitespace, as stripped by `str.strip()`:
space, tab, newline, carriage return, vertical tab, form feed. -/
def isPySpace (c : Char) : Bool :=
  c = ' ' || c = '\t' || c = '\n' || c = '\r' || c.toNat = 11 || c.toNat = 12

/-- Python `str.strip()`: remove leading and trailing whitespace. -/
def pyStrip (s : String) : String :=
  ⟨((s.data.dropWhile isPySpace).reverse.dropWhile isPySpace).reverse⟩

/-! ## Orchestration service (`main.py`) -/

/-- A call issued by an endpoint of `main.py` to an external provider. -/
inductive ProviderCall where
  | sttCall (audio : List Nat)
  | chatCall (messages : List Msg)
  | ttsCall (text : String)
deriving DecidableEq, Repr

/-- FastAPI `HTTPException(status_code, detail)` as raised at the endpoint
boundary (`main.py` lines 85, 120, 162, 241). -/
structure HTTPException where
  status_code : Nat
  detail : String
deriving DecidableEq, Repr

/-- Response body of `/speech-to-text` (`main.py` line 81). -/
structure SttResponse where
  transcript : String
  success : Bool
deriving DecidableEq, Repr

/-- Response body of `/chat` (`main.py` line 116). -/
structure ChatResponse where
  response : String
  success : Bool
deriving DecidableEq, Repr

/-- Response body of `/text-to-speech` (`main.py` lines 154-158); the
`audio` field carries the raw bytes (base64 transport encoding elided). -/
structure TtsResponse where
  audio : List Nat
  mime_type : String
  success : Bool
deriving DecidableEq, Repr

/-- Response body of `/voice` (`main.py` lines 229-235); `bot_audio`
carries the raw bytes (base64 transport encoding elided). -/
structure VoiceResponse where
  user_text : String
  bot_text : String
  bot_audio : List Nat
  audio_mime : String
  success : Bool
deriving DecidableEq, Repr

/-- Request body of `/chat` (`main.py` lines 46-48). -/
structure ChatRequest where
  message : String
  conversation_history : List Msg
deriving DecidableEq, Repr

/-- Request body of `/text-to-speech` (`main.py` lines 43-44). -/
structure TextRequest where
  text : String
deriving DecidableEq, Repr

/-- The fixed system instruction prepended by the `/chat` endpoint
(`main.py` line 96). -/
def chatSystemMsg : Msg :=
  ⟨"system", "You are a helpful voice assistant. Give short, direct answers in 2-3 sentences maximum. Never repeat yourself."⟩

/-- The fixed system instruction used by the `/voice` endpoint
(`main.py` line 193). -/
def voiceSystemMsg : Msg :=
  ⟨"system", "You are a helpful voice assistant. Give short, direct answers in 2-3 sentences. Never repeat yourself."⟩

/-- Line 93 of `main.py`: `recent_history = request.conversation_history[-6:]
if len(request.conversation_history) > 6 else request.conversation_history`. -/
def recent_history (h : List Msg) : List Msg :=
  if h.length > 6 then takeLast 6 h else h

/-- The provider message list built by the `/chat` endpoint
(`main.py` lines 95-99): system instruction, then capped history, then the
request message as the final user message. -/
def chatPromptMessages (message : String) (conversation_history : List Msg) : List Msg :=
  ([chatSystemMsg] ++ recent_history conversation_history) ++ [⟨"user", message⟩]

/-- The provider message list built by the `/voice` endpoint
(`main.py` lines 192-195): system instruction and the transcribed user
text only — no conversation history. -/
def voicePromptMessages (user_text : String) : List Msg :=
  [voiceSystemMsg, ⟨"user", user_text⟩]

/-- Endpoint `POST /speech-to-text` (`main.py` lines 60-85).  `sttP` is the Deepgram
transcription oracle; an exception becomes HTTP 500 with detail
`"Error: " ++ e`. -/
def speech_to_text_endpoint (sttP : List Nat → Except String String)
    (audio : List Nat) :
    Except HTTPException SttResponse × List ProviderCall :=
  match sttP audio with
  | .ok transcript => (.ok ⟨transcript, true⟩, [.sttCall audio])
  | .error e => (.error ⟨500, "Error: " ++ e⟩, [.sttCall audio])

/-- Endpoint `POST /chat` (`main.py` lines 88-120).  `chatP` is the Groq chat
completion oracle, applied to the full message list. -/
def chat (chatP : List Msg → Except String String) (request : ChatRequest) :
    Except HTTPException ChatResponse × List ProviderCall :=
  let messages := chatPromptMessages request.message request.conversation_history
  match chatP messages with
  | .ok ai_response => (.ok ⟨ai_response, true⟩, [.chatCall messages])
  | .error e => (.error ⟨500, "Error: " ++ e⟩, [.chatCall messages])

/-- Endpoint `POST /text-to-speech` (`main.py` lines 123-162).  `ttsP` is the
Deepgram synthesis oracle returning the generated audio bytes. -/
def text_to_speech_endpoint (ttsP : String → Except String (List Nat))
    (request : TextRequest) :
    Except HTTPException TtsResponse × List ProviderCall :=
  match ttsP request.text with
  | .ok audio_bytes => (.ok ⟨audio_bytes, "audio/mpeg", true⟩, [.ttsCall request.text])
  | .error e => (.error ⟨500, "Error: " ++ e⟩, [.ttsCall request.text])

/-- Endpoint `POST /voice` (`main.py` lines 165-241): transcribe, chat with NO
history, synthesize; any exception anywhere in the pipeline becomes
HTTP 500 with detail `"Error: " ++ e`. -/
def voice_bot (sttP : List Nat → Except String String)
    (chatP : List Msg → Except String String)
    (ttsP : String → Except String (List Nat))
    (audio_bytes : List Nat) :
    Except HTTPException VoiceResponse × List ProviderCall :=
  match sttP audio_bytes with
  | .error e => (.error ⟨500, "Error: " ++ e⟩, [.sttCall audio_bytes])
  | .ok user_text =>
    let messages := voicePromptMessages user_text
    match chatP messages with
    | .error e => (.error ⟨500, "Error: " ++ e⟩, [.sttCall audio_bytes, .chatCall messages])
    | .ok bot_text =>
      match ttsP bot_text with
      | .error e =>
          (.error ⟨500, "Error: " ++ e⟩,
           [.sttCall audio_bytes, .chatCall messages, .ttsCall bot_text])
      | .ok bot_audio_bytes =>
          (.ok ⟨user_text, bot_text, bot_audio_bytes, "audio/mpeg", true⟩,
           [.sttCall audio_bytes, .chatCall messages, .ttsCall bot_text])

/-! ## Session controller (`app.py`) -/

/-- Session state `st.session_state` as initialised and mutated by `app.py`
(lines 14-21). -/
structure SessionState where
  conversation_history : List Msg
  messages : List DisplayMsg
  processing : Bool
  last_audio_bytes : Option (List Nat)
deriving DecidableEq, Repr

/-- The initial session state (`app.py` lines 14-21): empty histories,
not processing, no stored audio fingerprint. -/
def initialSessionState : SessionState :=
  { conversation_history := []
    messages := []
    processing := false
    last_audio_bytes := none }

/-- An HTTP call issued by the client to the orchestration service. -/
inductive ClientCall where
  | sttReq (audio : List Nat)
  | chatReq (message : String) (conversation_history : List Msg)
  | ttsReq (text : String)
deriving DecidableEq, Repr

/-- How one client turn ended. -/
inductive TurnOutcome where
  | notStarted
  | duplicateAudio
  | noSpeech
  | chatFailed
  | ttsFailed
  | success
deriving DecidableEq, Repr

/-- An outcome in which a turn actually ran (the pipeline was entered). -/
def TurnOutcome.started : TurnOutcome → Bool
  | .notStarted => false
  | .duplicateAudio => false
  | _ => true

/-- The display entry appended for the user (`app.py` lines 176, 230). -/
def userDisplay (t : String) : DisplayMsg := ⟨"user", t, none⟩

/-- The chat-then-synthesize tail of a turn, shared verbatim between the
voice branch (`app.py` lines 179-213) and the text branch (lines 233-267).
`s2` is the state after the user turn has been appended and `processing`
set; `t` is the user text.  `get_ai_response` (lines 37-52) forwards
`conversation_history[-10:]`; chat failure (`None` or whitespace-only
reply, lines 183/237) and synthesis failure (the `if audio_data:`
truthiness test at lines 188/242 rejects both `None` and empty bytes,
falling to lines 208-210/262-264) both reset `processing` and append
nothing further; on success (lines 188-207 / 242-261) the assistant turn
is appended to `messages` (with audio) and to `conversation_history`, and
`processing` is reset. -/
def runChatTts (chatO : String → List Msg → Option String)
    (ttsO : String → Option (List Nat))
    (s2 : SessionState) (t : String) :
    SessionState × TurnOutcome × List ClientCall :=
  let fwd := takeLast 10 s2.conversation_history
  match chatO t fwd with
  | none => ({ s2 with processing := false }, .chatFailed, [.chatReq t fwd])
  | some ai_response =>
    if pyStrip ai_response = "" then
      ({ s2 with processing := false }, .chatFailed, [.chatReq t fwd])
    else
      match ttsO ai_response with
      | none =>
          ({ s2 with processing := false }, .ttsFailed,
           [.chatReq t fwd, .ttsReq ai_response])
      | some audio_data =>
        if audio_data = [] then
          ({ s2 with processing := false }, .ttsFailed,
           [.chatReq t fwd, .ttsReq ai_response])
        else
          ({ s2 with
              messages := s2.messages ++ [⟨"assistant", ai_response, some audio_data⟩]
              conversation_history := s2.conversation_history ++ [⟨"assistant", ai_response⟩]
              processing := false },
           .success, [.chatReq t fwd, .ttsReq ai_response])

/-- One voice-input pass of the `app.py` script (lines 146-217).
`audioOpt` is what `audio_recorder` returned (`none` while processing,
line 150-160).  Guards: `if audio_bytes and not st.session_state.processing`
(line 163), then the fingerprint check
`if st.session_state.last_audio_bytes != audio_bytes` (line 165).  A new
recording stores the fingerprint, sets `processing`, and calls
`speech_to_text`; a `None` or whitespace-only transcript takes the
"No speech detected" branch (lines 214-217), which resets `processing` and
clears the fingerprint; otherwise the user turn is appended (lines
176-177) and the shared chat/synthesis tail runs. -/
def voiceStep (sttO : List Nat → Option String)
    (chatO : String → List Msg → Option String)
    (ttsO : String → Option (List Nat))
    (s : SessionState) (audioOpt : Option (List Nat)) :
    SessionState × TurnOutcome × List ClientCall :=
  match audioOpt with
  | none => (s, .notStarted, [])
  | some audio_bytes =>
    if audio_bytes = [] ∨ s.processing = true then (s, .notStarted, [])
    else if s.last_audio_bytes = some audio_bytes then (s, .duplicateAudio, [])
    else
      let s1 : SessionState :=
        { s with last_audio_bytes := some audio_bytes, processing := true }
      match sttO audio_bytes with
      | none =>
          ({ s1 with processing := false, last_audio_bytes := none },
           .noSpeech, [.sttReq audio_bytes])
      | some transcript =>
        if pyStrip transcript = "" then
          ({ s1 with processing := false, last_audio_bytes := none },
           .noSpeech, [.sttReq audio_bytes])
        else
          let s2 : SessionState :=
            { s1 with
                messages := s1.messages ++ [userDisplay transcript]
                conversation_history := s1.conversation_history ++ [⟨"user", transcript⟩] }
          let r := runChatTts chatO ttsO s2 transcript
          (r.1, r.2.1, .sttReq audio_bytes :: r.2.2)

/-- One text-input pass of the `app.py` script (lines 219-267).
While processing, `st.chat_input` is not rendered, so `user_input` is
`None` (lines 220-224); `if user_input:` (line 226) also rejects the empty
string.  A accepted input sets `processing`, appends the user turn (lines
227-231) and runs the shared chat/synthesis tail. -/
def textStep (chatO : String → List Msg → Option String)
    (ttsO : String → Option (List Nat))
    (s : SessionState) (inputOpt : Option String) :
    SessionState × TurnOutcome × List ClientCall :=
  let user_input : Option String := if s.processing = true then none else inputOpt
  match user_input with
  | none => (s, .notStarted, [])
  | some t =>
    if t = "" then (s, .notStarted, [])
    else
      let s1 : SessionState :=
        { s with
            processing := true
            messages := s.messages ++ [userDisplay t]
            conversation_history := s.conversation_history ++ [⟨"user", t⟩] }
      runChatTts chatO ttsO s1 t

/-! ## Helper lemmas -/

theorem takeLast_length {α : Type} (n : Nat) (l : List α) :
    (takeLast n l).length = min n l.length := by
  simp [takeLast, List.length_drop]
  omega

theorem takeLast_le {α : Type} (n : Nat) (l : List α) :
    (takeLast n l).length ≤ n := by
  rw [takeLast_length]
  exact Nat.min_le_left n l.length

theorem takeLast_concat {α : Type} (n : Nat) (hn : 1 ≤ n) (l : List α) (x : α) :
    ∃ l2, takeLast n (l ++ [x]) = l2 ++ [x] := by
  refine ⟨l.drop ((l ++ [x]).length - n), ?_⟩
  unfold takeLast
  rw [List.drop_append_of_le_length]
  simp
  omega

theorem recent_history_le (h : List Msg) : (recent_history h).length ≤ 6 := by
  unfold recent_history
  split
  · exact takeLast_le 6 h
  · omega

theorem recent_history_concat (l : List Msg) (x : Msg) :
    ∃ l2, recent_history (l ++ [x]) = l2 ++ [x] := by
  unfold recent_history
  split
  · exact takeLast_concat 6 (by omega) l x
  · exact ⟨l, rfl⟩

theorem chatPromptMessages_concat (m : String) (l : List Msg) :
    ∃ pre, chatPromptMessages m (l ++ [⟨"user", m⟩]) =
      pre ++ [⟨"user", m⟩, ⟨"user", m⟩] := by
  obtain ⟨l2, h2⟩ := recent_history_concat l ⟨"user", m⟩
  refine ⟨chatSystemMsg :: l2, ?_⟩
  unfold chatPromptMessages
  rw [h2]
  simp

/-- Exhaustive characterization of `runChatTts`: the chat stage fails, the
synthesis stage fails (a `None` result or empty audio bytes, both falsy
under the source's `if audio_data:` test), or the turn succeeds. -/
theorem runChatTts_spec (chatO : String → List Msg → Option String)
    (ttsO : String → Option (List Nat)) (s2 : SessionState) (t : String) :
    ((chatO t (takeLast 10 s2.conversation_history) = none ∨
      ∃ r, chatO t (takeLast 10 s2.conversation_history) = some r ∧ pyStrip r = "") ∧
     runChatTts chatO ttsO s2 t =
       ({ s2 with processing := false }, .chatFailed,
        [.chatReq t (takeLast 10 s2.conversation_history)]))
    ∨ (∃ r, chatO t (takeLast 10 s2.conversation_history) = some r ∧
        pyStrip r ≠ "" ∧ (ttsO r = none ∨ ttsO r = some []) ∧
        runChatTts chatO ttsO s2 t =
          ({ s2 with processing := false }, .ttsFailed,
           [.chatReq t (takeLast 10 s2.conversation_history), .ttsReq r]))
    ∨ (∃ r a, chatO t (takeLast 10 s2.conversation_history) = some r ∧
        pyStrip r ≠ "" ∧ ttsO r = some a ∧ a ≠ [] ∧
        runChatTts chatO ttsO s2 t =
          ({ s2 with
              messages := s2.messages ++ [⟨"assistant", r, some a⟩]
              conversation_history := s2.conversation_history ++ [⟨"assistant", r⟩]
              processing := false },
           .success,
           [.chatReq t (takeLast 10 s2.conversation_history), .ttsReq r])) := by
  cases hc : chatO t (takeLast 10 s2.conversation_history) with
  | none => exact Or.inl ⟨Or.inl rfl, by simp [runChatTts, hc]⟩
  | some r =>
    by_cases hr : pyStrip r = ""
    · exact Or.inl ⟨Or.inr ⟨r, rfl, hr⟩, by simp [runChatTts, hc, hr]⟩
    · cases ht : ttsO r with
      | none =>
          exact Or.inr (Or.inl ⟨r, rfl, hr, Or.inl ht,
            by simp [runChatTts, hc, hr, ht]⟩)
      | some a =>
        by_cases ha : a = []
        · exact Or.inr (Or.inl ⟨r, rfl, hr, Or.inr (ha ▸ ht),
            by simp [runChatTts, hc, hr, ht, ha]⟩)
        · exact Or.inr (Or.inr ⟨r, a, rfl, hr, ht, ha,
            by simp [runChatTts, hc, hr, ht, ha]⟩)

theorem runChatTts_processing (chatO : String → List Msg → Option String)
    (ttsO : String → Option (List Nat)) (s2 : SessionState) (t : String) :
    (runChatTts chatO ttsO s2 t).1.processing = false := by
  rcases runChatTts_spec chatO ttsO s2 t with ⟨_, h⟩ | ⟨r, _, _, _, h⟩ | ⟨r, a, _, _, _, _, h⟩ <;>
    rw [h]

theorem runChatTts_last_audio (chatO : String → List Msg → Option String)
    (ttsO : String → Option (List Nat)) (s2 : SessionState) (t : String) :
    (runChatTts chatO ttsO s2 t).1.last_audio_bytes = s2.last_audio_bytes := by
  rcases runChatTts_spec chatO ttsO s2 t with ⟨_, h⟩ | ⟨r, _, _, _, h⟩ | ⟨r, a, _, _, _, _, h⟩ <;>
    rw [h]

theorem runChatTts_outcome (chatO : String → List Msg → Option String)
    (ttsO : String → Option (List Nat)) (s2 : SessionState) (t : String) :
    (runChatTts chatO ttsO s2 t).2.1 = .chatFailed ∨
    (runChatTts chatO ttsO s2 t).2.1 = .ttsFailed ∨
    (runChatTts chatO ttsO s2 t).2.1 = .success := by
  rcases runChatTts_spec chatO ttsO s2 t with ⟨_, h⟩ | ⟨r, _, _, _, h⟩ | ⟨r, a, _, _, _, _, h⟩ <;>
    rw [h] <;> simp

theorem runChatTts_chatReq (chatO : String → List Msg → Option String)
    (ttsO : String → Option (List Nat)) (s2 : SessionState) (t : String)
    (m : String) (h : List Msg)
    (hmem : ClientCall.chatReq m h ∈ (runChatTts chatO ttsO s2 t).2.2) :
    m = t ∧ h = takeLast 10 s2.conversation_history := by
  rcases runChatTts_spec chatO ttsO s2 t with ⟨_, he⟩ | ⟨r, _, _, _, he⟩ | ⟨r, a, _, _, _, _, he⟩ <;>
    rw [he] at hmem <;> simp at hmem <;> tauto

/-- The session state right after a voice turn has stored the new audio
fingerprint, set `processing`, and appended the user turn
(`app.py` lines 165-177). -/
def voiceTurnState (s : SessionState) (a : List Nat) (t : String) : SessionState :=
  { s with
      last_audio_bytes := some a
      processing := true
      messages := s.messages ++ [userDisplay t]
      conversation_history := s.conversation_history ++ [⟨"user", t⟩] }

/-- The session state right after a text turn has set `processing` and
appended the user turn (`app.py` lines 227-231). -/
def textTurnState (s : SessionState) (t : String) : SessionState :=
  { s with
      processing := true
      messages := s.messages ++ [userDisplay t]
      conversation_history := s.conversation_history ++ [⟨"user", t⟩] }

/-- Exhaustive characterization of `voiceStep`: not started, duplicate
audio skipped, no speech detected, or the chat/synthesis tail ran. -/
theorem voiceStep_spec (sttO : List Nat → Option String)
    (chatO : String → List Msg → Option String)
    (ttsO : String → Option (List Nat))
    (s : SessionState) (audioOpt : Option (List Nat)) :
    (voiceStep sttO chatO ttsO s audioOpt = (s, .notStarted, []) ∧
       (audioOpt = none ∨ audioOpt = some [] ∨ s.processing = true))
    ∨ (∃ a, audioOpt = some a ∧ a ≠ [] ∧ s.processing = false ∧
        s.last_audio_bytes = some a ∧
        voiceStep sttO chatO ttsO s audioOpt = (s, .duplicateAudio, []))
    ∨ (∃ a, audioOpt = some a ∧ a ≠ [] ∧ s.processing = false ∧
        s.last_audio_bytes ≠ some a ∧
        (sttO a = none ∨ ∃ t, sttO a = some t ∧ pyStrip t = "") ∧
        voiceStep sttO chatO ttsO s audioOpt =
          ({ s with processing := false, last_audio_bytes := none },
           .noSpeech, [.sttReq a]))
    ∨ (∃ a t, audioOpt = some a ∧ a ≠ [] ∧ s.processing = false ∧
        s.last_audio_bytes ≠ some a ∧ sttO a = some t ∧ pyStrip t ≠ "" ∧
        voiceStep sttO chatO ttsO s audioOpt =
          ((runChatTts chatO ttsO (voiceTurnState s a t) t).1,
           (runChatTts chatO ttsO (voiceTurnState s a t) t).2.1,
           .sttReq a :: (runChatTts chatO ttsO (voiceTurnState s a t) t).2.2)) := by
  cases audioOpt with
  | none => exact Or.inl ⟨by simp [voiceStep], Or.inl rfl⟩
  | some a =>
    by_cases hg : a = [] ∨ s.processing = true
    · refine Or.inl ⟨by simp [voiceStep, hg], ?_⟩
      rcases hg with h | h
      · exact Or.inr (Or.inl (by rw [h]))
      · exact Or.inr (Or.inr h)
    · push_neg at hg
      obtain ⟨ha, hp⟩ := hg
      have hp' : s.processing = false := by
        cases hpc : s.processing
        · rfl
        · exact absurd hpc hp
      by_cases hd : s.last_audio_bytes = some a
      · exact Or.inr (Or.inl ⟨a, rfl, ha, hp', hd,
          by simp [voiceStep, ha, hp', hd]⟩)
      · cases hstt : sttO a with
        | none =>
          exact Or.inr (Or.inr (Or.inl ⟨a, rfl, ha, hp', hd, Or.inl hstt,
            by simp [voiceStep, ha, hp', hd, hstt]⟩))
        | some t =>
          by_cases hws : pyStrip t = ""
          · exact Or.inr (Or.inr (Or.inl ⟨a, rfl, ha, hp', hd, Or.inr ⟨t, hstt, hws⟩,
              by simp [voiceStep, ha, hp', hd, hstt, hws]⟩))
          · exact Or.inr (Or.inr (Or.inr ⟨a, t, rfl, ha, hp', hd, hstt, hws,
              by simp [voiceStep, voiceTurnState, ha, hp', hd, hstt, hws]⟩))

/-- Exhaustive characterization of `textStep`: not started, or the
chat/synthesis tail ran on the appended user turn. -/
theorem textStep_spec (chatO : String → List Msg → Option String)
    (ttsO : String → Option (List Nat))
    (s : SessionState) (inputOpt : Option String) :
    (textStep chatO ttsO s inputOpt = (s, .notStarted, []) ∧
       (inputOpt = none ∨ inputOpt = some "" ∨ s.processing = true))
    ∨ (∃ t, inputOpt = some t ∧ t ≠ "" ∧ s.processing = false ∧
        textStep chatO ttsO s inputOpt = runChatTts chatO ttsO (textTurnState s t) t) := by
  by_cases hp : s.processing = true
  · exact Or.inl ⟨by simp [textStep, hp], Or.inr (Or.inr hp)⟩
  · have hp' : s.processing = false := by
      cases hpc : s.processing
      · rfl
      · exact absurd hpc hp
    cases inputOpt with
    | none => exact Or.inl ⟨by simp [textStep, hp'], Or.inl rfl⟩
    | some t =>
      by_cases ht : t = ""
      · exact Or.inl ⟨by simp [textStep, hp', ht], Or.inr (Or.inl (by rw [ht]))⟩
      · exact Or.inr ⟨t, rfl, ht, hp',
          by simp [textStep, textTurnState, hp', ht]⟩

/-! ## Concrete oracles for witnesses and counterexamples -/

/-- Client speech-to-text oracle that always hears "hi". -/
def sttHi : List Nat → Option String := fun _ => some "hi"

/-- Client speech-to-text oracle that always returns an empty transcript. -/
def sttBlank : List Nat → Option String := fun _ => some ""

/-- Client chat oracle that always answers "yo". -/
def chatYo : String → List Msg → Option String := fun _ _ => some "yo"

/-- Client text-to-speech oracle that always produces one byte of audio. -/
def ttsBeep : String → Option (List Nat) := fun _ => some [0]

/-- Client text-to-speech oracle that always fails. -/
def ttsDown : String → Option (List Nat) := fun _ => none

/-- Client text-to-speech oracle that returns empty audio bytes — falsy
under the source's `if audio_data:` test, hence a failed synthesis. -/
def ttsEmpty : String → Option (List Nat) := fun _ => some []

/-- Server transcription oracle that always succeeds with "hi". -/
def sttOkP : List Nat → Except String String := fun _ => .ok "hi"

/-- Server transcription oracle that always raises. -/
def sttErrP : List Nat → Except String String := fun _ => .error "boom"

/-- Server chat oracle that always succeeds with "ok". -/
def chatOkP : List Msg → Except String String := fun _ => .ok "ok"

/-- Server chat oracle that always raises. -/
def chatErrP : List Msg → Except String String := fun _ => .error "boom"

/-- Server synthesis oracle that always succeeds with one byte. -/
def ttsOkP : String → Except String (List Nat) := fun _ => .ok [1]

/-- Server synthesis oracle that always raises. -/
def ttsErrP : String → Except String (List Nat) := fun _ => .error "boom"

/-- A session state in the middle of a turn. -/
def busySessionState : SessionState :=
  { initialSessionState with processing := true }

/-! ## Claims -/

theorem chat_call_messages (chatP : List Msg → Except String String)
    (request : ChatRequest) (msgs : List Msg)
    (hmem : ProviderCall.chatCall msgs ∈ (chat chatP request).2) :
    msgs = chatPromptMessages request.message request.conversation_history := by
  cases hc : chatP (chatPromptMessages request.message request.conversation_history) <;>
    simp [chat, hc] at hmem <;> exact hmem

theorem voice_chatReq_history (sttO : List Nat → Option String)
    (chatO : String → List Msg → Option String)
    (ttsO : String → Option (List Nat))
    (s : SessionState) (audioOpt : Option (List Nat)) (m : String) (h : List Msg)
    (hmem : ClientCall.chatReq m h ∈ (voiceStep sttO chatO ttsO s audioOpt).2.2) :
    h = takeLast 10 (s.conversation_history ++ [⟨"user", m⟩]) := by
  rcases voiceStep_spec sttO chatO ttsO s audioOpt with
    ⟨he, _⟩ | ⟨a, _, _, _, _, he⟩ | ⟨a, _, _, _, _, _, he⟩ | ⟨a, t, _, _, _, _, _, _, he⟩ <;>
    rw [he] at hmem <;> simp at hmem
  obtain ⟨hm, hh⟩ := runChatTts_chatReq chatO ttsO (voiceTurnState s a t) t m h hmem
  subst hm
  simpa [voiceTurnState] using hh

theorem text_chatReq_history (chatO : String → List Msg → Option String)
    (ttsO : String → Option (List Nat))
    (s : SessionState) (inputOpt : Option String) (m : String) (h : List Msg)
    (hmem : ClientCall.chatReq m h ∈ (textStep chatO ttsO s inputOpt).2.2) :
    h = takeLast 10 (s.conversation_history ++ [⟨"user", m⟩]) := by
  rcases textStep_spec chatO ttsO s inputOpt with ⟨he, _⟩ | ⟨t, _, _, _, he⟩ <;>
    rw [he] at hmem
  · simp at hmem
  · obtain ⟨hm, hh⟩ := runChatTts_chatReq chatO ttsO (textTurnState s t) t m h hmem
    subst hm
    simpa [textTurnState] using hh

/-- C1: every `/chat` call places at most 6 history entries between the
system instruction and the final user message, whatever history the caller
supplies; and the client forwards at most the last 10 entries of its local
history on every chat request it issues (voice or text turn). -/
theorem C1_history_caps :
    (∀ (chatP : List Msg → Except String String) (request : ChatRequest)
       (msgs : List Msg),
       ProviderCall.chatCall msgs ∈ (chat chatP request).2 →
       ∃ mid, msgs = chatSystemMsg :: (mid ++ [⟨"user", request.message⟩]) ∧
         mid.length ≤ 6)
    ∧ (∀ sttO chatO ttsO (s : SessionState) audioOpt (m : String) (h : List Msg),
       ClientCall.chatReq m h ∈ (voiceStep sttO chatO ttsO s audioOpt).2.2 →
       h.length ≤ 10)
    ∧ (∀ chatO ttsO (s : SessionState) inputOpt (m : String) (h : List Msg),
       ClientCall.chatReq m h ∈ (textStep chatO ttsO s inputOpt).2.2 →
       h.length ≤ 10) := by
  refine ⟨?_, ?_, ?_⟩
  · intro chatP request msgs hmem
    rw [chat_call_messages chatP request msgs hmem]
    exact ⟨recent_history request.conversation_history,
      by simp [chatPromptMessages], recent_history_le _⟩
  · intro sttO chatO ttsO s audioOpt m h hmem
    rw [voice_chatReq_history sttO chatO ttsO s audioOpt m h hmem]
    exact takeLast_le _ _
  · intro chatO ttsO s inputOpt m h hmem
    rw [text_chatReq_history chatO ttsO s inputOpt m h hmem]
    exact takeLast_le _ _

theorem C1_witness :
    (ProviderCall.chatCall (chatPromptMessages "hi" []) ∈
       (chat chatOkP ⟨"hi", []⟩).2)
    ∧ ∃ mid, chatPromptMessages "hi" [] =
        chatSystemMsg :: (mid ++ [⟨"user", "hi"⟩]) ∧ mid.length ≤ 6 :=
  ⟨by decide, C1_history_caps.1 chatOkP ⟨"hi", []⟩ _ (by decide)⟩

/-- C2: the processing flag is false initially; while it is true no turn
can start (both input paths are no-ops with no calls); a turn runs only
from the idle state on genuinely new input (fresh non-empty audio, or
non-empty typed text); and every terminating branch of a turn leaves the
flag false again. -/
theorem C2_processing_flag :
    initialSessionState.processing = false
    ∧ (∀ sttO chatO ttsO (s : SessionState) audioOpt, s.processing = true →
        voiceStep sttO chatO ttsO s audioOpt = (s, .notStarted, []))
    ∧ (∀ chatO ttsO (s : SessionState) inputOpt, s.processing = true →
        textStep chatO ttsO s inputOpt = (s, .notStarted, []))
    ∧ (∀ sttO chatO ttsO (s : SessionState) audioOpt,
        ((voiceStep sttO chatO ttsO s audioOpt).2.1).started = true →
        s.processing = false ∧
        (voiceStep sttO chatO ttsO s audioOpt).1.processing = false ∧
        ∃ a, audioOpt = some a ∧ a ≠ [] ∧ s.last_audio_bytes ≠ some a)
    ∧ (∀ chatO ttsO (s : SessionState) inputOpt,
        ((textStep chatO ttsO s inputOpt).2.1).started = true →
        s.processing = false ∧
        (textStep chatO ttsO s inputOpt).1.processing = false ∧
        ∃ t, inputOpt = some t ∧ t ≠ "") := by
  refine ⟨rfl, ?_, ?_, ?_, ?_⟩
  · intro sttO chatO ttsO s audioOpt hp
    cases audioOpt with
    | none => simp [voiceStep]
    | some a => simp [voiceStep, hp]
  · intro chatO ttsO s inputOpt hp
    simp [textStep, hp]
  · intro sttO chatO ttsO s audioOpt hst
    rcases voiceStep_spec sttO chatO ttsO s audioOpt with
      ⟨he, _⟩ | ⟨a, _, _, _, _, he⟩ | ⟨a, hao, ha, hp, hd, _, he⟩ |
      ⟨a, t, hao, ha, hp, hd, _, _, he⟩
    · rw [he] at hst
      simp [TurnOutcome.started] at hst
    · rw [he] at hst
      simp [TurnOutcome.started] at hst
    · exact ⟨hp, by rw [he], a, hao, ha, hd⟩
    · exact ⟨hp, by rw [he]; exact runChatTts_processing _ _ _ _, a, hao, ha, hd⟩
  · intro chatO ttsO s inputOpt hst
    rcases textStep_spec chatO ttsO s inputOpt with ⟨he, _⟩ | ⟨t, hio, ht, hp, he⟩
    · rw [he] at hst
      simp [TurnOutcome.started] at hst
    · exact ⟨hp, by rw [he]; exact runChatTts_processing _ _ _ _, t, hio, ht⟩

theorem C2_witness :
    busySessionState.processing = true
    ∧ voiceStep sttHi chatYo ttsBeep busySessionState (some [1]) =
        (busySessionState, .notStarted, [])
    ∧ textStep chatYo ttsBeep busySessionState (some "hey") =
        (busySessionState, .notStarted, []) :=
  ⟨rfl, C2_processing_flag.2.1 sttHi chatYo ttsBeep busySessionState (some [1]) rfl,
    C2_processing_flag.2.2.1 chatYo ttsBeep busySessionState (some "hey") rfl⟩

/-- C3 counterexample: on a voice turn whose synthesis stage fails after a
non-empty chat response, the session state differs from the pre-turn state
by more than the appended user turn — the stored audio fingerprint also
changed (from `none` to the submitted clip), so "the only state change is
the already-appended user turn" is false as stated. -/
theorem C3_counterexample :
    (voiceStep sttHi chatYo ttsDown initialSessionState (some [1])).2.1 = .ttsFailed
    ∧ (voiceStep sttHi chatYo ttsDown initialSessionState (some [1])).1.last_audio_bytes ≠
        initialSessionState.last_audio_bytes := by
  decide

/-- C3 (amended): on every turn whose synthesis stage fails after a
non-empty chat response, the assistant text is appended to neither the
display messages nor the conversation history; the state changes left by
the failed turn are exactly the appended user turn and — on voice turns
only — the updated audio fingerprint. -/
theorem C3_synthesis_failure_appends_nothing :
    (∀ sttO chatO ttsO (s : SessionState) audioOpt,
       (voiceStep sttO chatO ttsO s audioOpt).2.1 = .ttsFailed →
       ∃ a t, audioOpt = some a ∧ sttO a = some t ∧
         (voiceStep sttO chatO ttsO s audioOpt).1 =
           { s with
               messages := s.messages ++ [userDisplay t]
               conversation_history := s.conversation_history ++ [⟨"user", t⟩]
               last_audio_bytes := some a })
    ∧ (∀ chatO ttsO (s : SessionState) inputOpt,
       (textStep chatO ttsO s inputOpt).2.1 = .ttsFailed →
       ∃ t, inputOpt = some t ∧
         (textStep chatO ttsO s inputOpt).1 =
           { s with
               messages := s.messages ++ [userDisplay t]
               conversation_history := s.conversation_history ++ [⟨"user", t⟩] }) := by
  constructor
  · intro sttO chatO ttsO s audioOpt hout
    rcases voiceStep_spec sttO chatO ttsO s audioOpt with
      ⟨he, _⟩ | ⟨a, _, _, _, _, he⟩ | ⟨a, _, _, _, _, _, he⟩ |
      ⟨a, t, hao, ha, hp, hd, hstt, hws, he⟩
    · rw [he] at hout
      simp at hout
    · rw [he] at hout
      simp at hout
    · rw [he] at hout
      simp at hout
    · refine ⟨a, t, hao, hstt, ?_⟩
      rw [he] at hout ⊢
      simp only at hout
      rcases runChatTts_spec chatO ttsO (voiceTurnState s a t) t with
        ⟨_, hr⟩ | ⟨r, _, _, _, hr⟩ | ⟨r, ad, _, _, _, _, hr⟩
      · rw [hr] at hout
        simp at hout
      · rw [hr]
        obtain ⟨ch, ms, pr, la⟩ := s
        simp only [voiceTurnState] at *
        simp_all
      · rw [hr] at hout
        simp at hout
  · intro chatO ttsO s inputOpt hout
    rcases textStep_spec chatO ttsO s inputOpt with ⟨he, _⟩ | ⟨t, hio, ht, hp, he⟩
    · rw [he] at hout
      simp at hout
    · refine ⟨t, hio, ?_⟩
      rw [he] at hout ⊢
      rcases runChatTts_spec chatO ttsO (textTurnState s t) t with
        ⟨_, hr⟩ | ⟨r, _, _, _, hr⟩ | ⟨r, ad, _, _, _, _, hr⟩
      · rw [hr] at hout
        simp at hout
      · rw [hr]
        obtain ⟨ch, ms, pr, la⟩ := s
        simp only [textTurnState] at *
        simp_all
      · rw [hr] at hout
        simp at hout

theorem C3_witness :
    ((voiceStep sttHi chatYo ttsDown initialSessionState (some [1])).2.1 = .ttsFailed
      ∧ ∃ a t, some [1] = some a ∧ sttHi a = some t ∧
          (voiceStep sttHi chatYo ttsDown initialSessionState (some [1])).1 =
            { initialSessionState with
                messages := initialSessionState.messages ++ [userDisplay t]
                conversation_history :=
                  initialSessionState.conversation_history ++ [⟨"user", t⟩]
                last_audio_bytes := some a })
    ∧ ((textStep chatYo ttsEmpty initialSessionState (some "hey")).2.1 = .ttsFailed
      ∧ ∃ t, some "hey" = some t ∧
          (textStep chatYo ttsEmpty initialSessionState (some "hey")).1 =
            { initialSessionState with
                messages := initialSessionState.messages ++ [userDisplay t]
                conversation_history :=
                  initialSessionState.conversation_history ++ [⟨"user", t⟩] }) :=
  ⟨⟨by decide,
      C3_synthesis_failure_appends_nothing.1 sttHi chatYo ttsDown initialSessionState
        (some [1]) (by decide)⟩,
    ⟨by decide,
      C3_synthesis_failure_appends_nothing.2 chatYo ttsEmpty initialSessionState
        (some "hey") (by decide)⟩⟩

/-- C4 counterexample: submit clip `[1]` twice in direct succession with a
transcription oracle that returns an empty transcript.  The first
submission ends in the empty-transcript branch, which clears the stored
fingerprint, so the second byte-identical submission IS reprocessed: the
client issues a fresh speech-to-text call (non-empty call list), falsifying
"the second submission is never reprocessed". -/
theorem C4_counterexample :
    (voiceStep sttBlank chatYo ttsBeep initialSessionState (some [1])).2.1 = .noSpeech
    ∧ (voiceStep sttBlank chatYo ttsBeep
        (voiceStep sttBlank chatYo ttsBeep initialSessionState (some [1])).1
        (some [1])).2.2 ≠ [] := by
  decide

/-- C4 (amended): if byte-identical audio is submitted twice in direct
succession and the first submission did not end in the empty-transcript
("no speech detected") branch — which clears the fingerprint — then the
second submission is not reprocessed: the session state is unchanged and
no pipeline call is issued. -/
theorem C4_duplicate_audio_skipped
    (sttO : List Nat → Option String)
    (chatO : String → List Msg → Option String)
    (ttsO : String → Option (List Nat))
    (s : SessionState) (a : List Nat)
    (hns : (voiceStep sttO chatO ttsO s (some a)).2.1 ≠ .noSpeech) :
    (voiceStep sttO chatO ttsO (voiceStep sttO chatO ttsO s (some a)).1 (some a)).1 =
      (voiceStep sttO chatO ttsO s (some a)).1
    ∧ (voiceStep sttO chatO ttsO (voiceStep sttO chatO ttsO s (some a)).1 (some a)).2.2 =
        [] := by
  rcases voiceStep_spec sttO chatO ttsO s (some a) with
    ⟨he, hg⟩ | ⟨a', hao, ha, hp, hd, he⟩ | ⟨a', hao, ha, hp, hd, _, he⟩ |
    ⟨a', t, hao, ha, hp, hd, hstt, hws, he⟩
  · rw [he]
    rcases hg with hg | hg | hg
    · exact absurd hg (by simp)
    · have ha : a = [] := by
        injection hg
      simp [voiceStep, ha]
    · simp [voiceStep, hg]
  · injection hao with hv
    subst hv
    rw [he]
    simp [voiceStep, ha, hp, hd]
  · rw [he] at hns
    simp at hns
  · injection hao with hv
    subst hv
    rw [he]
    have h1 : (runChatTts chatO ttsO (voiceTurnState s a t) t).1.processing = false :=
      runChatTts_processing _ _ _ _
    have h2 : (runChatTts chatO ttsO (voiceTurnState s a t) t).1.last_audio_bytes =
        some a := by
      rw [runChatTts_last_audio]
      rfl
    simp [voiceStep, ha, h1, h2]

theorem C4_witness :
    (voiceStep sttHi chatYo ttsBeep initialSessionState (some [1])).2.1 ≠ .noSpeech
    ∧ (voiceStep sttHi chatYo ttsBeep
          (voiceStep sttHi chatYo ttsBeep initialSessionState (some [1])).1
          (some [1])).1 =
        (voiceStep sttHi chatYo ttsBeep initialSessionState (some [1])).1
    ∧ (voiceStep sttHi chatYo ttsBeep
          (voiceStep sttHi chatYo ttsBeep initialSessionState (some [1])).1
          (some [1])).2.2 = [] :=
  ⟨by decide,
    (C4_duplicate_audio_skipped sttHi chatYo ttsBeep initialSessionState [1]
      (by decide)).1,
    (C4_duplicate_audio_skipped sttHi chatYo ttsBeep initialSessionState [1]
      (by decide)).2⟩

/-- C5: a voice turn whose transcription result is empty or
whitespace-only aborts with the "no speech detected" outcome, and neither
the display messages nor the conversation history receives any entry. -/
theorem C5_empty_transcript_aborts
    (sttO : List Nat → Option String)
    (chatO : String → List Msg → Option String)
    (ttsO : String → Option (List Nat))
    (s : SessionState) (a : List Nat) (t : String)
    (hp : s.processing = false) (ha : a ≠ [])
    (hd : s.last_audio_bytes ≠ some a)
    (hstt : sttO a = some t) (hws : pyStrip t = "") :
    voiceStep sttO chatO ttsO s (some a) =
      ({ s with processing := false, last_audio_bytes := none },
       .noSpeech, [.sttReq a]) := by
  simp [voiceStep, hp, ha, hd, hstt, hws]

theorem C5_witness :
    initialSessionState.processing = false ∧ ([1] : List Nat) ≠ []
    ∧ initialSessionState.last_audio_bytes ≠ some [1]
    ∧ sttBlank [1] = some "" ∧ pyStrip "" = ""
    ∧ voiceStep sttBlank chatYo ttsBeep initialSessionState (some [1]) =
        ({ initialSessionState with processing := false, last_audio_bytes := none },
         .noSpeech, [.sttReq [1]]) :=
  ⟨rfl, by decide, by decide, rfl, rfl,
    C5_empty_transcript_aborts sttBlank chatYo ttsBeep initialSessionState [1] ""
      rfl (by decide) (by decide) rfl rfl⟩

/-- C6: on every endpoint (`/speech-to-text`, `/chat`, `/text-to-speech`,
`/voice`), a raised provider exception is converted at the boundary to an
HTTP 500 whose detail string starts with (hence contains) "Error:" — for
`/voice` this is proved separately for an exception in each of its three
stages (transcription, chat, synthesis) — and every error response of
these endpoints has that shape, so the raw exception is never
propagated. -/
theorem C6_provider_errors_become_500 :
    (∀ sttP (audio : List Nat) e, sttP audio = .error e →
       (speech_to_text_endpoint sttP audio).1 = .error ⟨500, "Error: " ++ e⟩)
    ∧ (∀ chatP (request : ChatRequest) e,
       chatP (chatPromptMessages request.message request.conversation_history) =
         .error e →
       (chat chatP request).1 = .error ⟨500, "Error: " ++ e⟩)
    ∧ (∀ ttsP (request : TextRequest) e, ttsP request.text = .error e →
       (text_to_speech_endpoint ttsP request).1 = .error ⟨500, "Error: " ++ e⟩)
    ∧ (∀ sttP chatP ttsP (audio : List Nat) e, sttP audio = .error e →
       (voice_bot sttP chatP ttsP audio).1 = .error ⟨500, "Error: " ++ e⟩)
    ∧ (∀ sttP chatP ttsP (audio : List Nat) t e, sttP audio = .ok t →
       chatP (voicePromptMessages t) = .error e →
       (voice_bot sttP chatP ttsP audio).1 = .error ⟨500, "Error: " ++ e⟩)
    ∧ (∀ sttP chatP ttsP (audio : List Nat) t bt e, sttP audio = .ok t →
       chatP (voicePromptMessages t) = .ok bt → ttsP bt = .error e →
       (voice_bot sttP chatP ttsP audio).1 = .error ⟨500, "Error: " ++ e⟩)
    ∧ (∀ sttP (audio : List Nat) d,
       (speech_to_text_endpoint sttP audio).1 = .error d →
       d.status_code = 500 ∧ ∃ rest, d.detail = "Error: " ++ rest)
    ∧ (∀ chatP (request : ChatRequest) d, (chat chatP request).1 = .error d →
       d.status_code = 500 ∧ ∃ rest, d.detail = "Error: " ++ rest)
    ∧ (∀ ttsP (request : TextRequest) d,
       (text_to_speech_endpoint ttsP request).1 = .error d →
       d.status_code = 500 ∧ ∃ rest, d.detail = "Error: " ++ rest)
    ∧ (∀ sttP chatP ttsP (audio : List Nat) d,
       (voice_bot sttP chatP ttsP audio).1 = .error d →
       d.status_code = 500 ∧ ∃ rest, d.detail = "Error: " ++ rest) := by
  refine ⟨?_, ?_, ?_, ?_, ?_, ?_, ?_, ?_, ?_, ?_⟩
  · intro sttP audio e he
    simp [speech_to_text_endpoint, he]
  · intro chatP request e he
    simp [chat, he]
  · intro ttsP request e he
    simp [text_to_speech_endpoint, he]
  · intro sttP chatP ttsP audio e he
    simp [voice_bot, he]
  · intro sttP chatP ttsP audio t e he1 he2
    simp [voice_bot, he1, he2]
  · intro sttP chatP ttsP audio t bt e he1 he2 he3
    simp [voice_bot, he1, he2, he3]
  · intro sttP audio d hd
    cases he : sttP audio <;> simp [speech_to_text_endpoint, he] at hd
    rw [← hd]
    exact ⟨rfl, _, rfl⟩
  · intro chatP request d hd
    cases he : chatP (chatPromptMessages request.message request.conversation_history) <;>
      simp [chat, he] at hd
    rw [← hd]
    exact ⟨rfl, _, rfl⟩
  · intro ttsP request d hd
    cases he : ttsP request.text <;> simp [text_to_speech_endpoint, he] at hd
    rw [← hd]
    exact ⟨rfl, _, rfl⟩
  · intro sttP chatP ttsP audio d hd
    cases he1 : sttP audio with
    | error e =>
      simp [voice_bot, he1] at hd
      rw [← hd]
      exact ⟨rfl, _, rfl⟩
    | ok t =>
      cases he2 : chatP (voicePromptMessages t) with
      | error e =>
        simp [voice_bot, he1, he2] at hd
        rw [← hd]
        exact ⟨rfl, _, rfl⟩
      | ok bt =>
        cases he3 : ttsP bt with
        | error e =>
          simp [voice_bot, he1, he2, he3] at hd
          rw [← hd]
          exact ⟨rfl, _, rfl⟩
        | ok ab =>
          simp [voice_bot, he1, he2, he3] at hd

theorem C6_witness :
    (sttErrP [1] = .error "boom"
      ∧ (speech_to_text_endpoint sttErrP [1]).1 = .error ⟨500, "Error: " ++ "boom"⟩)
    ∧ (chatErrP (chatPromptMessages "hi" []) = .error "boom"
      ∧ (chat chatErrP ⟨"hi", []⟩).1 = .error ⟨500, "Error: " ++ "boom"⟩)
    ∧ (ttsErrP "hi" = .error "boom"
      ∧ (text_to_speech_endpoint ttsErrP ⟨"hi"⟩).1 = .error ⟨500, "Error: " ++ "boom"⟩)
    ∧ (sttErrP [1] = .error "boom"
      ∧ (voice_bot sttErrP chatOkP ttsOkP [1]).1 = .error ⟨500, "Error: " ++ "boom"⟩)
    ∧ (sttOkP [1] = .ok "hi" ∧ chatErrP (voicePromptMessages "hi") = .error "boom"
      ∧ (voice_bot sttOkP chatErrP ttsOkP [1]).1 = .error ⟨500, "Error: " ++ "boom"⟩)
    ∧ (sttOkP [1] = .ok "hi" ∧ chatOkP (voicePromptMessages "hi") = .ok "ok"
      ∧ ttsErrP "ok" = .error "boom"
      ∧ (voice_bot sttOkP chatOkP ttsErrP [1]).1 = .error ⟨500, "Error: " ++ "boom"⟩) :=
  ⟨⟨rfl, C6_provider_errors_become_500.1 sttErrP [1] "boom" rfl⟩,
    ⟨rfl, C6_provider_errors_become_500.2.1 chatErrP ⟨"hi", []⟩ "boom" rfl⟩,
    ⟨rfl, C6_provider_errors_become_500.2.2.1 ttsErrP ⟨"hi"⟩ "boom" rfl⟩,
    ⟨rfl, C6_provider_errors_become_500.2.2.2.1 sttErrP chatOkP ttsOkP [1] "boom" rfl⟩,
    ⟨rfl, rfl, C6_provider_errors_become_500.2.2.2.2.1 sttOkP chatErrP ttsOkP [1]
      "hi" "boom" rfl rfl⟩,
    ⟨rfl, rfl, rfl, C6_provider_errors_become_500.2.2.2.2.2.1 sttOkP chatOkP ttsErrP [1]
      "hi" "ok" "boom" rfl rfl rfl⟩⟩

/-- C7: every chat request the `/voice` endpoint sends to the
language-model provider consists of exactly two messages — the fixed
system instruction and the transcribed user text — and never any
conversation history. -/
theorem C7_voice_chat_is_single_turn
    (sttP : List Nat → Except String String)
    (chatP : List Msg → Except String String)
    (ttsP : String → Except String (List Nat))
    (audio : List Nat) (msgs : List Msg)
    (hmem : ProviderCall.chatCall msgs ∈ (voice_bot sttP chatP ttsP audio).2) :
    ∃ t, sttP audio = .ok t ∧ msgs = voicePromptMessages t ∧
      msgs = [voiceSystemMsg, ⟨"user", t⟩] ∧ msgs.length = 2 := by
  cases he1 : sttP audio with
  | error e =>
    simp [voice_bot, he1] at hmem
  | ok t =>
    refine ⟨t, rfl, ?_⟩
    cases he2 : chatP (voicePromptMessages t) with
    | error e =>
      simp [voice_bot, he1, he2] at hmem
      simp [hmem, voicePromptMessages]
    | ok bt =>
      cases he3 : ttsP bt with
      | error e =>
        simp [voice_bot, he1, he2, he3] at hmem
        simp [hmem, voicePromptMessages]
      | ok ab =>
        simp [voice_bot, he1, he2, he3] at hmem
        simp [hmem, voicePromptMessages]

theorem C7_witness :
    (ProviderCall.chatCall (voicePromptMessages "hi") ∈
       (voice_bot sttOkP chatOkP ttsOkP [1]).2)
    ∧ ∃ t, sttOkP [1] = .ok t ∧ voicePromptMessages "hi" = voicePromptMessages t ∧
        voicePromptMessages "hi" = [voiceSystemMsg, ⟨"user", t⟩] ∧
        (voicePromptMessages "hi").length = 2 :=
  ⟨by decide, C7_voice_chat_is_single_turn sttOkP chatOkP ttsOkP [1] _ (by decide)⟩

/-- C8: the first element of every message list the `/chat` endpoint sends
to the language-model provider is the fixed system instruction, for every
request message and every conversation history. -/
theorem C8_system_message_first
    (chatP : List Msg → Except String String) (request : ChatRequest)
    (msgs : List Msg)
    (hmem : ProviderCall.chatCall msgs ∈ (chat chatP request).2) :
    msgs.head? = some chatSystemMsg := by
  rw [chat_call_messages chatP request msgs hmem]
  simp [chatPromptMessages]

theorem C8_witness :
    (ProviderCall.chatCall (chatPromptMessages "hi" [⟨"user", "x"⟩]) ∈
       (chat chatOkP ⟨"hi", [⟨"user", "x"⟩]⟩).2)
    ∧ (chatPromptMessages "hi" [⟨"user", "x"⟩]).head? = some chatSystemMsg :=
  ⟨by decide, C8_system_message_first chatOkP ⟨"hi", [⟨"user", "x"⟩]⟩ _ (by decide)⟩

/-- C9: because the client appends the current user message to its history
before calling `/chat` with the last 10 entries, and the server appends the
request message after the (capped) forwarded history, the provider message
list built for any chat request the client issues ends with two
consecutive copies of the current user message: once as the last forwarded
history entry and once as the final user message. -/
theorem C9_user_message_sent_twice :
    (∀ sttO chatO ttsO (s : SessionState) audioOpt (m : String) (h : List Msg),
       ClientCall.chatReq m h ∈ (voiceStep sttO chatO ttsO s audioOpt).2.2 →
       ∃ pre, chatPromptMessages m h = pre ++ [⟨"user", m⟩, ⟨"user", m⟩])
    ∧ (∀ chatO ttsO (s : SessionState) inputOpt (m : String) (h : List Msg),
       ClientCall.chatReq m h ∈ (textStep chatO ttsO s inputOpt).2.2 →
       ∃ pre, chatPromptMessages m h = pre ++ [⟨"user", m⟩, ⟨"user", m⟩]) := by
  constructor
  · intro sttO chatO ttsO s audioOpt m h hmem
    rw [voice_chatReq_history sttO chatO ttsO s audioOpt m h hmem]
    obtain ⟨l2, hl2⟩ :=
      takeLast_concat 10 (by omega) s.conversation_history (⟨"user", m⟩ : Msg)
    rw [hl2]
    exact chatPromptMessages_concat m l2
  · intro chatO ttsO s inputOpt m h hmem
    rw [text_chatReq_history chatO ttsO s inputOpt m h hmem]
    obtain ⟨l2, hl2⟩ :=
      takeLast_concat 10 (by omega) s.conversation_history (⟨"user", m⟩ : Msg)
    rw [hl2]
    exact chatPromptMessages_concat m l2

theorem C9_witness :
    (ClientCall.chatReq "hi" [⟨"user", "hi"⟩] ∈
       (voiceStep sttHi chatYo ttsBeep initialSessionState (some [1])).2.2)
    ∧ ∃ pre, chatPromptMessages "hi" [⟨"user", "hi"⟩] =
        pre ++ [⟨"user", "hi"⟩, ⟨"user", "hi"⟩] :=
  ⟨by decide,
    C9_user_message_sent_twice.1 sttHi chatYo ttsBeep initialSessionState
      (some [1]) "hi" [⟨"user", "hi"⟩] (by decide)⟩

/-- C10: on a voice turn, the fingerprint `last_audio_bytes` ends as the
submitted clip on chat failure, synthesis failure and success — so an
immediately resubmitted byte-identical clip is skipped with no state change
and no calls — while the empty-transcript branch resets it to `none`, after
which the same clip IS reprocessed (a fresh pipeline call list is issued). -/
theorem C10_fingerprint_lifecycle
    (sttO : List Nat → Option String)
    (chatO : String → List Msg → Option String)
    (ttsO : String → Option (List Nat))
    (s : SessionState) (a : List Nat) :
    ((voiceStep sttO chatO ttsO s (some a)).2.1 = .noSpeech →
       (voiceStep sttO chatO ttsO s (some a)).1.last_audio_bytes = none ∧
       (voiceStep sttO chatO ttsO
          (voiceStep sttO chatO ttsO s (some a)).1 (some a)).2.2 ≠ [])
    ∧ ((voiceStep sttO chatO ttsO s (some a)).2.1 = .chatFailed ∨
       (voiceStep sttO chatO ttsO s (some a)).2.1 = .ttsFailed ∨
       (voiceStep sttO chatO ttsO s (some a)).2.1 = .success →
       (voiceStep sttO chatO ttsO s (some a)).1.last_audio_bytes = some a ∧
       voiceStep sttO chatO ttsO (voiceStep sttO chatO ttsO s (some a)).1 (some a) =
         ((voiceStep sttO chatO ttsO s (some a)).1, .duplicateAudio, [])) := by
  constructor
  · intro hns
    rcases voiceStep_spec sttO chatO ttsO s (some a) with
      ⟨he, _⟩ | ⟨a', hao, ha, hp, hd, he⟩ | ⟨a', hao, ha, hp, hd, _, he⟩ |
      ⟨a', t, hao, ha, hp, hd, hstt, hws, he⟩
    · rw [he] at hns
      simp at hns
    · rw [he] at hns
      simp at hns
    · injection hao with hv
      subst hv
      rw [he]
      refine ⟨rfl, ?_⟩
      cases hstt2 : sttO a with
      | none => simp [voiceStep, ha, hstt2]
      | some t2 =>
        by_cases hws2 : pyStrip t2 = ""
        · simp [voiceStep, ha, hstt2, hws2]
        · simp [voiceStep, ha, hstt2, hws2]
    · rw [he] at hns
      rcases runChatTts_outcome chatO ttsO (voiceTurnState s a' t) t with h | h | h <;>
        simp [h] at hns
  · intro hout
    rcases voiceStep_spec sttO chatO ttsO s (some a) with
      ⟨he, _⟩ | ⟨a', hao, ha, hp, hd, he⟩ | ⟨a', hao, ha, hp, hd, _, he⟩ |
      ⟨a', t, hao, ha, hp, hd, hstt, hws, he⟩
    · rw [he] at hout
      rcases hout with h | h | h <;> simp at h
    · rw [he] at hout
      rcases hout with h | h | h <;> simp at h
    · rw [he] at hout
      rcases hout with h | h | h <;> simp at h
    · injection hao with hv
      subst hv
      rw [he]
      have h2 : (runChatTts chatO ttsO (voiceTurnState s a t) t).1.last_audio_bytes =
          some a := by
        rw [runChatTts_last_audio]
        rfl
      refine ⟨h2, ?_⟩
      have h1 : (runChatTts chatO ttsO (voiceTurnState s a t) t).1.processing = false :=
        runChatTts_processing _ _ _ _
      simp [voiceStep, ha, h1, h2]

theorem C10_witness :
    ((voiceStep sttBlank chatYo ttsBeep initialSessionState (some [1])).2.1 = .noSpeech
      ∧ (voiceStep sttBlank chatYo ttsBeep initialSessionState (some [1])).1.last_audio_bytes
          = none
      ∧ (voiceStep sttBlank chatYo ttsBeep
          (voiceStep sttBlank chatYo ttsBeep initialSessionState (some [1])).1
          (some [1])).2.2 ≠ [])
    ∧ ((voiceStep sttHi chatYo ttsBeep initialSessionState (some [1])).2.1 = .success
      ∧ (voiceStep sttHi chatYo ttsBeep initialSessionState (some [1])).1.last_audio_bytes
          = some [1]
      ∧ voiceStep sttHi chatYo ttsBeep
          (voiceStep sttHi chatYo ttsBeep initialSessionState (some [1])).1 (some [1]) =
          ((voiceStep sttHi chatYo ttsBeep initialSessionState (some [1])).1,
           .duplicateAudio, [])) :=
  ⟨⟨by decide,
      (C10_fingerprint_lifecycle sttBlank chatYo ttsBeep initialSessionState [1]).1
        (by decide)⟩,
    ⟨by decide,
      (C10_fingerprint_lifecycle sttHi chatYo ttsBeep initialSessionState [1]).2
        (by decide)⟩⟩
